import Mathlib

/-!
Verification of the astronomy summarization core of
`src/kodaikanal_calendar_5.py`: the moon-phase classifier
`moon_phase_name` (lines 103-119) and the per-body rise/set/transit
lookup `get_times` (lines 122-136) together with its formatter
`to_ist` (lines 90-91).

Numeric phases are modelled as rationals; the Python comparisons on
floats against the integer thresholds 1, 49, 51, 99, 100 are order
comparisons, which rationals reproduce faithfully.  Absolute times
returned by the ephemeris are modelled as minutes since an epoch in
UTC; the IST conversion (`astimezone(IST)`, UTC+05:30) adds 330
minutes before the wall-clock hour and minute are read off.
-/

/-- The moon-phase classifier, a direct transcription of
`moon_phase_name` (source lines 103-119): an ordered, first-match-wins
chain of comparisons. -/
def moon_phase_name (phase : ℚ) : String :=
  if phase < 1 then "New Moon"
  else if phase < 49 then "Waxing Crescent"
  else if phase < 51 then "First Quarter"
  else if phase < 99 then "Waxing Gibbous"
  else if phase ≤ 100 then "Full Moon"
  else if phase > 99 then "Waning Gibbous"
  else if phase > 51 then "Last Quarter"
  else "Waning Crescent"

/-- Index (1-8) of the branch of `moon_phase_name` that fires, with the
identical guard chain; branch 8 is the final `else` branch. -/
def moon_phase_branch (phase : ℚ) : Nat :=
  if phase < 1 then 1
  else if phase < 49 then 2
  else if phase < 51 then 3
  else if phase < 99 then 4
  else if phase ≤ 100 then 5
  else if phase > 99 then 6
  else if phase > 51 then 7
  else 8

/-- A calendar date, as taken apart by `datetime(sel.year, sel.month, sel.day)`. -/
structure Date where
  year : Nat
  month : Nat
  day : Nat

/-- The as-of date held by the ephemeris observer: a calendar date plus a
time-of-day component in minutes.  `observer.date = datetime(y, m, d)`
stores midnight, i.e. `minutesOfDay = 0`. -/
structure AsOf where
  d : Date
  minutesOfDay : Nat

/-- A celestial body (moon or planet), identified by name; its position
model lives inside the external ephemeris. -/
abbrev Body := String

/-- The `ephem.Observer()` object: fixed latitude/longitude strings
(source lines 98-99) and a mutable as-of date. -/
structure Observer where
  lat : String
  lon : String
  date : AsOf

/-- The external ephemeris collaborator: the three event queries
`next_rising`, `next_setting`, `next_transit`.  Each takes the observer
(whose as-of date it searches from) and a body, and either returns an
absolute time in minutes since the epoch (UTC) or raises, modelled as
`Except.error` with the exception message. -/
structure Ephemeris where
  next_rising : Observer → Body → Except String Nat
  next_setting : Observer → Body → Except String Nat
  next_transit : Observer → Body → Except String Nat

/-- Two-digit zero padding, as `%I` and `%M` produce for values below 100. -/
def pad2 (n : Nat) : String :=
  if n < 10 then "0" ++ toString n else toString n

/-- `strftime("%I:%M %p")` on a wall-clock hour (0-23) and minute:
zero-padded 12-hour hour, zero-padded minute, uppercase meridiem. -/
def strftimeIMp (hour minute : Nat) : String :=
  pad2 (if hour % 12 = 0 then 12 else hour % 12) ++ ":" ++ pad2 minute ++
    (if hour < 12 then " AM" else " PM")

/-- Wall-clock hour in IST of an absolute UTC time in minutes (UTC+05:30). -/
def istHour (t : Nat) : Nat := ((t + 330) / 60) % 24

/-- Wall-clock minute in IST of an absolute UTC time in minutes. -/
def istMin (t : Nat) : Nat := (t + 330) % 60

/-- `to_ist` (source lines 90-91): format a present absolute time as an
IST 12-hour clock string, an absent one as the literal "N/A". -/
def to_ist (dt : Option Nat) : String :=
  match dt with
  | none => "N/A"
  | some t => strftimeIMp (istHour t) (istMin t)

/-- One `try/except` block around a single sub-query (source lines
124-135): a successful query keeps its time, any raised exception is
swallowed and the field becomes absent (`None`). -/
def tryOpt (x : Except String Nat) : Option Nat :=
  match x with
  | Except.ok t => some t
  | Except.error _ => none

/-- `observer.date = datetime(sel.year, sel.month, sel.day)` (source
line 123): overwrite the as-of date with midnight of the selected
calendar date, leaving latitude and longitude unchanged. -/
def setDate (obs : Observer) (sel : Date) : Observer :=
  Observer.mk obs.lat obs.lon (AsOf.mk sel 0)

/-- `get_times` (source lines 122-136).  The result lives in `Except` so
that the possibility of the lookup itself raising is represented; the
body first resets the observer as-of date, then runs the three guarded
sub-queries and formats each.  It returns the updated observer together
with the (rise, set, transit) string triple. -/
def get_times (eph : Ephemeris) (obs : Observer) (sel : Date) (b : Body) :
    Except String (Observer × (String × String × String)) :=
  let obs2 := setDate obs sel
  let rise := tryOpt (eph.next_rising obs2 b)
  let setT := tryOpt (eph.next_setting obs2 b)
  let zen := tryOpt (eph.next_transit obs2 b)
  Except.ok (obs2, (to_ist rise, to_ist setT, to_ist zen))

/-- A concrete ephemeris for evaluation: the body rises at minute 60 and
transits at minute 390 of the epoch day, but never sets (the setting
query raises). -/
def ephNoSet : Ephemeris :=
  Ephemeris.mk (fun _ _ => Except.ok 60) (fun _ _ => Except.error "no setting")
    (fun _ _ => Except.ok 390)

/-- A concrete observer at the Kodaikanal coordinates used by the script. -/
def obsKodai : Observer :=
  Observer.mk "10.2306" "77.4686" (AsOf.mk (Date.mk 2024 1 1) 720)

/-- Claim C1: for every phase in [0, 100], the classifier returns the
label of the first matching bin: "New Moon" on [0, 1), "Waxing Crescent"
on [1, 49), "First Quarter" on [49, 51), "Waxing Gibbous" on [51, 99),
and "Full Moon" on [99, 100]. -/
theorem moon_phase_name_bins (phase : ℚ) :
    (0 ≤ phase → phase < 1 → moon_phase_name phase = "New Moon") ∧
    (1 ≤ phase → phase < 49 → moon_phase_name phase = "Waxing Crescent") ∧
    (49 ≤ phase → phase < 51 → moon_phase_name phase = "First Quarter") ∧
    (51 ≤ phase → phase < 99 → moon_phase_name phase = "Waxing Gibbous") ∧
    (99 ≤ phase → phase ≤ 100 → moon_phase_name phase = "Full Moon") := by
  unfold moon_phase_name
  refine ⟨?_, ?_, ?_, ?_, ?_⟩ <;> intro h1 h2 <;> split_ifs <;>
    first | rfl | linarith

/-- Claim C1 witness: the classifier evaluated in the middle bin. -/
theorem moon_phase_name_bins_witness :
    moon_phase_name 50 = "First Quarter" :=
  (moon_phase_name_bins 50).2.2.1 (by norm_num) (by norm_num)

/-- Claim C3: every phase above 100 is classified "Waning Gibbous", and
the "Last Quarter" and "Waning Crescent" branches are unreachable for
any numeric input. -/
theorem moon_phase_name_above_100 (phase : ℚ) :
    (100 < phase → moon_phase_name phase = "Waning Gibbous") ∧
    moon_phase_name phase ≠ "Last Quarter" ∧
    moon_phase_name phase ≠ "Waning Crescent" := by
  unfold moon_phase_name
  refine ⟨fun h => ?_, ?_, ?_⟩ <;> split_ifs <;>
    first | rfl | (exfalso; linarith) | decide

/-- Claim C3 witness: the classifier evaluated above 100. -/
theorem moon_phase_name_above_100_witness :
    moon_phase_name 150 = "Waning Gibbous" ∧
    moon_phase_name 150 ≠ "Last Quarter" :=
  ⟨(moon_phase_name_above_100 150).1 (by norm_num),
   (moon_phase_name_above_100 150).2.1⟩

/-- Claim C4 counterexample: phase = -1 lies outside the nominal range
[0, 100], yet the classifier handles it in the first branch ("New
Moon"), not in the final (else) branch. -/
theorem moon_phase_branch_cex :
    (-1 : ℚ) < 0 ∧ moon_phase_branch (-1) = 1 ∧
    moon_phase_branch (-1) ≠ 8 ∧ moon_phase_name (-1) = "New Moon" := by
  refine ⟨by norm_num, ?_, ?_, ?_⟩ <;> norm_num [moon_phase_branch, moon_phase_name]

/-- Claim C4 (amended): every out-of-range phase is accepted without
error, but it does not reach the final (else) branch: a negative phase
takes the first branch ("New Moon"), a phase above 100 takes the sixth
branch ("Waning Gibbous"), and no input at all reaches branch 8. -/
theorem moon_phase_branch_out_of_range (phase : ℚ) :
    (phase < 0 → moon_phase_branch phase = 1 ∧ moon_phase_name phase = "New Moon") ∧
    (100 < phase → moon_phase_branch phase = 6 ∧ moon_phase_name phase = "Waning Gibbous") ∧
    moon_phase_branch phase ≠ 8 := by
  unfold moon_phase_branch moon_phase_name
  refine ⟨fun h => ?_, fun h => ?_, ?_⟩ <;> split_ifs <;>
    first | exact ⟨rfl, rfl⟩ | (exfalso; linarith) | decide

/-- Claim C4 witness: a negative phase takes the first branch. -/
theorem moon_phase_branch_out_of_range_witness :
    moon_phase_branch (-2) = 1 ∧ moon_phase_name (-2) = "New Moon" :=
  (moon_phase_branch_out_of_range (-2)).1 (by norm_num)

/-- Claim C9: for every input phase the classifier terminates with one
of the eight fixed MoonPhaseLabel strings; it never produces anything
outside that set. -/
theorem moon_phase_name_label (phase : ℚ) :
    moon_phase_name phase ∈ ["New Moon", "Waxing Crescent", "First Quarter",
      "Waxing Gibbous", "Full Moon", "Waning Gibbous", "Last Quarter",
      "Waning Crescent"] := by
  unfold moon_phase_name
  split_ifs <;> simp

/-- Claim C10: every strictly negative phase is captured by the first
branch, so the classifier returns "New Moon" and no later branch is
reached. -/
theorem moon_phase_name_neg (phase : ℚ) (h : phase < 0) :
    moon_phase_name phase = "New Moon" ∧ moon_phase_branch phase = 1 := by
  unfold moon_phase_name moon_phase_branch
  rw [if_pos (by linarith), if_pos (by linarith)]
  exact ⟨rfl, rfl⟩

/-- Claim C10 witness: the classifier at phase -5. -/
theorem moon_phase_name_neg_witness :
    moon_phase_name (-5) = "New Moon" ∧ moon_phase_branch (-5) = 1 :=
  moon_phase_name_neg (-5) (by norm_num)

/-- Helper: the output of one guarded sub-query formats either to the
sentinel "N/A" or to the formatted string of some present time. -/
theorem to_ist_tryOpt_shape (x : Except String Nat) :
    to_ist (tryOpt x) = "N/A" ∨ ∃ t, to_ist (tryOpt x) = to_ist (some t) := by
  cases x with
  | ok t => exact Or.inr ⟨t, rfl⟩
  | error e => exact Or.inl rfl

/-- Claim C2: for every ephemeris, observer, body and date, `get_times`
returns normally (never raises): a triple of strings in which each field
independently is either "N/A" (its sub-query raised or found no event)
or the formatted time of a present event. -/
theorem get_times_never_raises (eph : Ephemeris) (obs : Observer)
    (sel : Date) (b : Body) :
    ∃ o r s z, get_times eph obs sel b = Except.ok (o, (r, s, z)) ∧
      (r = "N/A" ∨ ∃ t, r = to_ist (some t)) ∧
      (s = "N/A" ∨ ∃ t, s = to_ist (some t)) ∧
      (z = "N/A" ∨ ∃ t, z = to_ist (some t)) := by
  refine ⟨setDate obs sel, _, _, _, rfl, ?_, ?_, ?_⟩
  · exact to_ist_tryOpt_shape (eph.next_rising (setDate obs sel) b)
  · exact to_ist_tryOpt_shape (eph.next_setting (setDate obs sel) b)
  · exact to_ist_tryOpt_shape (eph.next_transit (setDate obs sel) b)

/-- Claim C5: whenever the ephemeris raises on the setting query but
succeeds on rising and transit, `get_times` returns the valid formatted
rise and transit strings with "N/A" only in the middle position: the
failure of one sub-query does not affect the other two fields. -/
theorem get_times_partial_failure (eph : Ephemeris) (obs : Observer)
    (sel : Date) (b : Body) (t1 t2 : Nat) (e : String)
    (hr : eph.next_rising (setDate obs sel) b = Except.ok t1)
    (hs : eph.next_setting (setDate obs sel) b = Except.error e)
    (hz : eph.next_transit (setDate obs sel) b = Except.ok t2) :
    get_times eph obs sel b =
      Except.ok (setDate obs sel,
        (to_ist (some t1), "N/A", to_ist (some t2))) := by
  have hdef : get_times eph obs sel b =
      Except.ok (setDate obs sel,
        (to_ist (tryOpt (eph.next_rising (setDate obs sel) b)),
         to_ist (tryOpt (eph.next_setting (setDate obs sel) b)),
         to_ist (tryOpt (eph.next_transit (setDate obs sel) b)))) := rfl
  rw [hdef, hr, hs, hz]
  rfl

/-- Claim C5 witness: a concrete ephemeris whose setting query raises
while rising and transit succeed; minute 60 UTC is 06:30 AM IST and
minute 390 UTC is 12:00 PM IST. -/
theorem get_times_partial_failure_witness :
    get_times ephNoSet obsKodai (Date.mk 2024 1 2) "Mars" =
      Except.ok (setDate obsKodai (Date.mk 2024 1 2),
        ("06:30 AM", "N/A", "12:00 PM")) := by
  have h := get_times_partial_failure ephNoSet obsKodai (Date.mk 2024 1 2)
    "Mars" 60 390 "no setting" rfl rfl rfl
  simpa using h

/-- Claim C6: calling `get_times` twice in succession with the same
date, feeding the observer returned by the first call into the second,
yields the identical result: the as-of date reset at the top of each
call makes the lookup reproducible. -/
theorem get_times_idempotent (eph : Ephemeris) (obs obs1 : Observer)
    (sel : Date) (b : Body) (r : String × String × String)
    (h : get_times eph obs sel b = Except.ok (obs1, r)) :
    get_times eph obs1 sel b = Except.ok (obs1, r) := by
  have hobs : setDate obs sel = obs1 := congrArg Prod.fst (Except.ok.inj h)
  subst hobs
  exact h

/-- Claim C6 witness: repeating the lookup with the observer returned by
the first call reproduces the first result exactly. -/
theorem get_times_idempotent_witness :
    get_times ephNoSet (setDate obsKodai (Date.mk 2024 1 2)) (Date.mk 2024 1 2) "Moon" =
      Except.ok (setDate obsKodai (Date.mk 2024 1 2),
        ("06:30 AM", "N/A", "12:00 PM")) :=
  get_times_idempotent ephNoSet obsKodai (setDate obsKodai (Date.mk 2024 1 2))
    (Date.mk 2024 1 2) "Moon" ("06:30 AM", "N/A", "12:00 PM") (by rfl)

/-- Claim C7: `get_times` returns the triple in the fixed order (rise,
set, transit); an absent value renders as the literal "N/A", and every
present time t renders as the IST wall clock of t (UTC+05:30) in the
form hh:mm AM/PM — zero-padded two-digit 12-hour hour, zero-padded
two-digit minute, uppercase meridiem chosen by the IST hour. -/
theorem get_times_order_and_format (eph : Ephemeris) (obs : Observer)
    (sel : Date) (b : Body) :
    get_times eph obs sel b =
      Except.ok (setDate obs sel,
        (to_ist (tryOpt (eph.next_rising (setDate obs sel) b)),
         to_ist (tryOpt (eph.next_setting (setDate obs sel) b)),
         to_ist (tryOpt (eph.next_transit (setDate obs sel) b)))) ∧
    to_ist none = "N/A" ∧
    ∀ t : Nat, ∃ h12 m : Nat, 1 ≤ h12 ∧ h12 ≤ 12 ∧ m < 60 ∧
      (pad2 h12).length = 2 ∧ (pad2 m).length = 2 ∧
      h12 % 12 = istHour t % 12 ∧ m = istMin t ∧
      to_ist (some t) =
        pad2 h12 ++ ":" ++ pad2 m ++ (if istHour t < 12 then " AM" else " PM") := by
  refine ⟨rfl, rfl, fun t => ?_⟩
  have hlen : ∀ n : Nat, n < 100 → (pad2 n).length = 2 := by decide
  have hm : istMin t < 60 := Nat.mod_lt _ (by norm_num)
  have hto : to_ist (some t) =
      pad2 (if istHour t % 12 = 0 then 12 else istHour t % 12) ++ ":" ++
        pad2 (istMin t) ++ (if istHour t < 12 then " AM" else " PM") := rfl
  by_cases h0 : istHour t % 12 = 0
  · exact ⟨12, istMin t, by norm_num, by norm_num, hm,
      hlen 12 (by norm_num), hlen _ (by omega), by omega,
      rfl, by rw [hto, if_pos h0]⟩
  · have hlt : istHour t % 12 < 12 := Nat.mod_lt _ (by norm_num)
    exact ⟨istHour t % 12, istMin t, by omega, by omega, hm,
      hlen _ (by omega), hlen _ (by omega), by omega,
      rfl, by rw [hto, if_neg h0]⟩

/-- Claim C8: every call to `get_times` overwrites the observer as-of
date with midnight of the selected calendar date (time-of-day component
zero) before the three event queries run: the queries see the updated
observer, the returned observer carries the new date, and the result is
independent of whatever as-of date the observer previously held. -/
theorem get_times_sets_asof (eph : Ephemeris) (obs : Observer)
    (sel : Date) (b : Body) (old : AsOf) :
    (setDate obs sel).date = AsOf.mk sel 0 ∧
    get_times eph obs sel b =
      Except.ok (setDate obs sel,
        (to_ist (tryOpt (eph.next_rising (setDate obs sel) b)),
         to_ist (tryOpt (eph.next_setting (setDate obs sel) b)),
         to_ist (tryOpt (eph.next_transit (setDate obs sel) b)))) ∧
    get_times eph (Observer.mk obs.lat obs.lon old) sel b =
      get_times eph obs sel b :=
  ⟨rfl, rfl, rfl⟩
